import Mathlib

/-!
Verification of the Presence and Relay Engine of monitor-iot-server
(src/server.js, the current iteration: the one holding the redis
subscriber, the module-level connectedDevices map and the token-keyed
sockets map).

The JavaScript handlers are embedded shallowly: each event handler
becomes a pure Lean function from its inputs (connection parameters,
the module-level maps, the incoming frame) to an effect record listing
the new state, the messages published to the redis bus and the frames
sent on local sockets.  JSON values are modelled by the inductive
`Json`; JavaScript strict equality and truthiness are modelled by
`Json.sEq` and `Json.truthy`.
-/

/-- Model of a JavaScript/JSON value as it flows through the server.
`undef` stands for the result of reading an absent property. -/
inductive Json where
  | undef : Json
  | null : Json
  | bool : Bool → Json
  | num : Int → Json
  | str : String → Json
  | arr : List Json → Json
  | obj : List (String × Json) → Json

/-- JavaScript strict equality (the === operator) restricted to the values
the server compares.  Primitives compare by value; two separately parsed
objects or arrays are never reference-equal, so object and array
comparisons yield false.  The same relation models SameValueZero used by
Map keys (undefined keys collide, fresh object keys never do). -/
def Json.sEq : Json → Json → Bool
  | Json.undef, Json.undef => true
  | Json.null, Json.null => true
  | Json.bool a, Json.bool b => a = b
  | Json.num a, Json.num b => a = b
  | Json.str a, Json.str b => a = b
  | _, _ => false

/-- JavaScript truthiness of a value: undefined, null, false, 0 and the
empty string are falsy, everything else is truthy. -/
def Json.truthy : Json → Bool
  | Json.undef => false
  | Json.null => false
  | Json.bool b => b
  | Json.num n => n ≠ 0
  | Json.str s => s ≠ ""
  | Json.arr _ => true
  | Json.obj _ => true

/-- Property lookup in an object field list; absent keys give undef. -/
def getField : List (String × Json) → String → Json
  | [], _ => Json.undef
  | p :: ps, k => if p.1 = k then p.2 else getField ps k

/-- Property read content[k]; reading a property of a non-object gives
undef (the crash on undefined receivers is outside the modelled paths,
which always index parsed envelope objects). -/
def jsIndex : Json → String → Json
  | Json.obj fs, k => getField fs k
  | _, _ => Json.undef

/-- Property assignment inside a field list: overwrite in place keeping
the property position, else append. -/
def setFields : List (String × Json) → String → Json → List (String × Json)
  | [], k, v => [(k, v)]
  | p :: ps, k, v => if p.1 = k then (p.1, v) :: ps else p :: setFields ps k v

/-- Property assignment obj[k] = v; assignment on a primitive is a
silent no-op, as in sloppy-mode JavaScript. -/
def setField : Json → String → Json → Json
  | Json.obj fs, k, v => Json.obj (setFields fs k v)
  | j, _, _ => j

/-- Map.get for the connectedDevices map (keys are Json values, compared
by SameValueZero, modelled by Json.sEq). -/
def mapGet : List (Json × Json) → Json → Option Json
  | [], _ => none
  | p :: ps, k => if Json.sEq p.1 k then some p.2 else mapGet ps k

/-- Map.set: replace the value of the first matching entry in place
(keeping the stored key and its iteration position), else append. -/
def mapSet : List (Json × Json) → Json → Json → List (Json × Json)
  | [], k, v => [(k, v)]
  | p :: ps, k, v => if Json.sEq p.1 k then (p.1, v) :: ps else p :: mapSet ps k v

/-- Map.delete: remove the first matching entry. -/
def mapDelete : List (Json × Json) → Json → List (Json × Json)
  | [], _ => []
  | p :: ps, k => if Json.sEq p.1 k then ps else p :: mapDelete ps k

example : jsIndex (Json.obj [("a", Json.num 1), ("b", Json.str "x")]) "b" = Json.str "x" := rfl
example : (Json.sEq (Json.str "a") (Json.str "a")) = true := rfl
example : (Json.obj []).truthy = true := rfl
example : mapGet (mapSet [] (Json.str "d") (Json.num 1)) (Json.str "d") = some (Json.num 1) := rfl

/-!  Envelope constructors, exactly the object literals published by
server.js (field order as written in the source). -/

/-- createDeviceObj from server.js: the device object built at mcu
connection time. -/
def createDeviceObj (deviceId userId deviceName deviceType : String) (data : Json) : Json :=
  Json.obj [("deviceId", Json.str deviceId), ("userId", Json.str userId),
            ("deviceName", Json.str deviceName), ("deviceType", Json.str deviceType),
            ("data", data)]

/-- Envelope published by the mcu branch of the socket message handler:
the object literal with keys deviceObj then messageType, messageType
mcuUpdatesDevice (the deviceAnnounce/deviceUpdate envelope). -/
def mkMcuUpdate (d : Json) : Json :=
  Json.obj [("deviceObj", d), ("messageType", Json.str "mcuUpdatesDevice")]

/-- Envelope published by the user branch of the socket message handler:
deviceObj then messageType userUpdatesDevice (the userCommand envelope). -/
def mkUserUpdate (d : Json) : Json :=
  Json.obj [("deviceObj", d), ("messageType", Json.str "userUpdatesDevice")]

/-- Device list push sent to the user socket: devices then messageType. -/
def mkDevicesPush (tag : String) (devices : List Json) : Json :=
  Json.obj [("devices", Json.arr devices), ("messageType", Json.str tag)]

/-!  The per-connection socket message handler (ws.on message, first
listener).  It closes over clientType, userId and the connection-local
deviceObj variable; its only possible effects are a redis publish and,
in the mcu branch, the reassignment of deviceObj.  The body sends
nothing on any socket and never closes the connection, so those effect
channels are constantly empty in the record. -/

/-- Effect record of one run of the socket message handler. -/
structure WsMsgFx where
  deviceObj : Json
  published : List (String × Json)
  sent : List Json
  closed : Bool

/-- Shallow embedding of the first ws message listener: pong frames
return early; the user branch publishes a userUpdatesDevice envelope
when the frame has truthy deviceId and data fields, else does nothing;
the mcu branch overwrites deviceObj with the frame and publishes it as
mcuUpdatesDevice unconditionally. -/
def wsMessageHandler (clientType userId : String) (deviceObj content : Json) : WsMsgFx :=
  if Json.sEq (jsIndex content "type") (Json.str "pong") then
    ⟨deviceObj, [], [], false⟩
  else if clientType = "user" then
    if (jsIndex content "deviceId").truthy && (jsIndex content "data").truthy then
      ⟨deviceObj, [(userId, mkUserUpdate content)], [], false⟩
    else
      ⟨deviceObj, [], [], false⟩
  else if clientType = "mcu" then
    ⟨content, [(userId, mkMcuUpdate content)], [], false⟩
  else
    ⟨deviceObj, [], [], false⟩

/-- Second ws message listener: a pong frame clears the pending pong
deadline timer; every other frame leaves it as it was. -/
def pongListener (content : Json) (pingTimeoutPending : Bool) : Bool :=
  if Json.sEq (jsIndex content "type") (Json.str "pong") then false else pingTimeoutPending

/-!  The per-connection redis bus message handler.  It closes over
clientType, userId, token and deviceObj, reads the module-level sockets
map (only through sockets.has token and sockets.get token) and mutates
the module-level connectedDevices map. -/

/-- Effect record of one run of the redis message handler: the new
connectedDevices map, the new connection-local deviceObj, the frames
sent on the local socket and the envelopes published back to the bus. -/
structure RedisMsgFx where
  cache : List (Json × Json)
  deviceObj : Json
  sent : List Json
  published : List (String × Json)

/-- Shallow embedding of the redisSubscriber message listener registered
by one connection.  It first drops messages whose channel differs from
the connection userId; the user branch handles removeDevice and
mcuUpdatesDevice against the shared connectedDevices map and pushes the
whole current device list when the token is registered; the mcu branch
answers getDevices, applies userUpdatesDevice for its own deviceId by
assigning the data property, and forwards userStopped. -/
def redisMessageHandler (clientType userId : String) (socketsHas : Bool)
    (cache : List (Json × Json)) (deviceObj : Json)
    (incomingUserId : String) (content : Json) : RedisMsgFx :=
  if userId ≠ incomingUserId then
    ⟨cache, deviceObj, [], []⟩
  else if clientType = "user" then
    if Json.sEq (jsIndex content "messageType") (Json.str "removeDevice")
        && (jsIndex content "deviceId").truthy then
      let cache2 := mapDelete cache (jsIndex content "deviceId")
      ⟨cache2, deviceObj,
        if socketsHas then [mkDevicesPush "removeDevice" (cache2.map Prod.snd)] else [], []⟩
    else if Json.sEq (jsIndex content "messageType") (Json.str "mcuUpdatesDevice")
        && (jsIndex content "deviceObj").truthy then
      let d := jsIndex content "deviceObj"
      let cache2 := mapSet cache (jsIndex d "deviceId") d
      ⟨cache2, deviceObj,
        if socketsHas then [mkDevicesPush "userUpdatesDevice" (cache2.map Prod.snd)] else [], []⟩
    else
      ⟨cache, deviceObj, [], []⟩
  else if clientType = "mcu" then
    if Json.sEq (jsIndex content "messageType") (Json.str "getDevices") then
      ⟨cache, deviceObj, [],
        [(userId, Json.obj [("messageType", Json.str "mcuUpdatesDevice"), ("deviceObj", deviceObj)])]⟩
    else if Json.sEq (jsIndex content "messageType") (Json.str "userUpdatesDevice")
        && Json.sEq (jsIndex (jsIndex content "deviceObj") "deviceId") (jsIndex deviceObj "deviceId") then
      let newObj := setField deviceObj "data" (jsIndex (jsIndex content "deviceObj") "data")
      ⟨cache, newObj, if socketsHas then [newObj] else [], []⟩
    else if Json.sEq (jsIndex content "messageType") (Json.str "userStopped")
        && Json.sEq (jsIndex content "userId") (Json.str userId) then
      ⟨cache, deviceObj,
        if socketsHas then [Json.obj [("messageType", Json.str "userStopped")]] else [], []⟩
    else
      ⟨cache, deviceObj, [], []⟩
  else
    ⟨cache, deviceObj, [], []⟩

/-!  Connection establishment (wss.on connection) and the sockets map.
The sockets map is keyed by the bearer token; socket handles are
modelled as Nat identifiers. -/

/-- Guarded registration of both branches: sockets.set runs only when
sockets.has(token) is false, so an occupied token keeps its old handle. -/
def registerSocket (sockets : List (String × Nat)) (token : String) (ws : Nat) :
    List (String × Nat) :=
  if sockets.any (fun p => p.1 = token) then sockets else sockets ++ [(token, ws)]

/-- sockets.has for a token. -/
def socketsHasTok (sockets : List (String × Nat)) (token : String) : Bool :=
  sockets.any (fun p => p.1 = token)

/-- Truthiness of a url.searchParams.get result: null and the empty
string are falsy. -/
def paramTruthy : Option String → Bool
  | none => false
  | some s => s ≠ ""

/-- Result of the connection handler up to and including registration:
the close call issued on reject (code and reason), the sockets map after
the attempt, the channels subscribed and the envelopes published. -/
structure ConnFx where
  closed : Option (Nat × String)
  sockets : List (String × Nat)
  subscribed : List String
  published : List (String × Json)
  deviceObj : Json

/-- Shallow embedding of the wss connection handler, with the auth gate
(jwt verification plus user lookup) abstracted as a function from the
token to the decoded user id when authentication succeeds.  Mirrors the
source order: missing token/userId/type reject, then authentication and
owner check reject (one shared close call for both causes), then the
user branch (register, subscribe, publish getDevices) or the mcu branch
(missing device identity reject, register, subscribe, publish the
announce envelope). -/
def handleConnection (auth : String → Option String)
    (sockets : List (String × Nat)) (ws : Nat)
    (token userId clientType deviceId deviceName deviceType : Option String) : ConnFx :=
  if ¬(paramTruthy token && paramTruthy userId && paramTruthy clientType) then
    ⟨some (1008, "Unauthorized: Missing token, userId, or client type"),
      sockets, [], [], Json.obj []⟩
  else
    let t := token.getD ""
    let u := userId.getD ""
    match auth t with
    | none =>
        ⟨some (1008, "Unauthorized: Invalid token or userId mismatch"),
          sockets, [], [], Json.obj []⟩
    | some uid =>
        if uid ≠ u then
          ⟨some (1008, "Unauthorized: Invalid token or userId mismatch"),
            sockets, [], [], Json.obj []⟩
        else if clientType = some "user" then
          ⟨none, registerSocket sockets t ws, [u],
            [(u, Json.obj [("messageType", Json.str "getDevices")])], Json.obj []⟩
        else if clientType = some "mcu" then
          if ¬(paramTruthy deviceId && paramTruthy deviceName && paramTruthy deviceType) then
            ⟨some (1008, "Unauthorized: Missing deviceId, deviceName, deviceType"),
              sockets, [], [], Json.obj []⟩
          else
            let dObj := createDeviceObj (deviceId.getD "") u (deviceName.getD "")
                          (deviceType.getD "") (Json.obj [])
            ⟨none, registerSocket sockets t ws, [u],
              [(u, Json.obj [("messageType", Json.str "mcuUpdatesDevice"), ("deviceObj", dObj)])],
              dObj⟩
        else
          ⟨none, sockets, [], [], Json.obj []⟩

/-!  Process-level state: the live connection handlers of one server
process together with the two module-level maps. -/

/-- Connection-scoped data captured by the handler closures. -/
structure Conn where
  token : String
  userId : String
  clientType : String
  deviceObj : Json

/-- Process state: live connections, the token-keyed sockets map and the
module-level connectedDevices map shared by every connection. -/
structure Proc where
  conns : List Conn
  sockets : List (String × Nat)
  connectedDevices : List (Json × Json)

/-- Accepting an authenticated connection at process level: the new
handler closure becomes live and registration runs on the sockets map.
The second component lists the close signals issued to other transports
by registration; the source sends none. -/
def acceptConn (p : Proc) (c : Conn) (ws : Nat) : Proc × List Nat :=
  (⟨p.conns ++ [c], registerSocket p.sockets c.token ws, p.connectedDevices⟩, [])

/-- Connections holding a given (userId, clientType) identity key. -/
def connsWithKey (conns : List Conn) (u ct : String) : List Conn :=
  conns.filter (fun c => c.userId = u && c.clientType = ct)

/-!  Close handling and the heartbeat timeout. -/

/-- Effect record of a cleanup step (the close handler or the pong
deadline callback). -/
structure CleanupFx where
  published : List (String × Json)
  sockets : List (String × Nat)
  unsubscribed : List String
  wsCloseCalled : Bool

/-- Shallow embedding of the ws close handler: sockets.delete(token),
an unconditional unsubscribe of the userId channel, and for the mcu
role a publish of the object literal with removeDevice true and the
deviceId (note: this literal has no messageType field). -/
def closeHandlerFx (clientType userId token : String) (deviceObj : Json)
    (sockets : List (String × Nat)) : CleanupFx :=
  ⟨if clientType = "mcu" then
      [(userId, Json.obj [("removeDevice", Json.bool true), ("deviceId", jsIndex deviceObj "deviceId")])]
    else [],
    sockets.filter (fun p => p.1 ≠ token),
    [userId],
    false⟩

/-- Shallow embedding of the pong deadline callback inside sendPing: it
publishes the terminal envelope for the role (messageType removeDevice
with the deviceId for mcu, messageType userStopped with the userId for
user), deletes the token from sockets, unsubscribes the channel and
calls ws.close. -/
def pingTimeoutFire (clientType userId token : String) (deviceObj : Json)
    (sockets : List (String × Nat)) : CleanupFx :=
  ⟨if clientType = "mcu" then
      [(userId, Json.obj [("messageType", Json.str "removeDevice"),
                          ("deviceId", jsIndex deviceObj "deviceId")])]
    else if clientType = "user" then
      [(userId, Json.obj [("messageType", Json.str "userStopped"), ("userId", Json.str userId)])]
    else [],
    sockets.filter (fun p => p.1 ≠ token),
    [userId],
    true⟩

/-- Heartbeat timeout followed by the close event its ws.close call
produces: the effects of the deadline callback and then of the close
handler, in source order. -/
def timeoutThenClose (clientType userId token : String) (deviceObj : Json)
    (sockets : List (String × Nat)) : CleanupFx :=
  let t := pingTimeoutFire clientType userId token deviceObj sockets
  let c := closeHandlerFx clientType userId token deviceObj t.sockets
  ⟨t.published ++ c.published, c.sockets, t.unsubscribed ++ c.unsubscribed, true⟩

/-- Shallow embedding of sendPing up to its side conditions: a ping is
sent only when the transport readyState is OPEN (1) and the token is
registered; the pong deadline timer is armed whenever readyState is
OPEN.  Returns (pingSent, timeoutArmed). -/
def sendPing (readyState : Nat) (socketsHas : Bool) : Bool × Bool :=
  if readyState = 1 then (socketsHas, true) else (false, false)

/-- Close of the connection at position i of the process, running its
close handler against the process sockets map; the closure stops being
live. -/
def closeConnAt (p : Proc) (i : Nat) : Proc × CleanupFx :=
  match p.conns[i]? with
  | none => (p, ⟨[], p.sockets, [], false⟩)
  | some c =>
      let fx := closeHandlerFx c.clientType c.userId c.token c.deviceObj p.sockets
      (⟨p.conns.eraseIdx i, fx.sockets, p.connectedDevices⟩, fx)

/-- Delivery of one bus message to the process: the shared subscriber
emits the event to every live connection listener in registration
order, each one reading and writing the shared connectedDevices map in
turn.  Collects the frames sent (tagged with the token of the sending
connection) and the envelopes published. -/
def deliverBus (p : Proc) (channel : String) (content : Json) :
    Proc × List (String × Json) × List (String × Json) :=
  let step := fun (acc : List Conn × List (Json × Json) × List (String × Json) × List (String × Json))
      (c : Conn) =>
    let r := redisMessageHandler c.clientType c.userId (socketsHasTok p.sockets c.token)
              acc.2.1 c.deviceObj channel content
    (acc.1 ++ [⟨c.token, c.userId, c.clientType, r.deviceObj⟩],
      r.cache,
      acc.2.2.1 ++ r.sent.map (fun m => (c.token, m)),
      acc.2.2.2 ++ r.published)
  let out := p.conns.foldl step ([], p.connectedDevices, [], [])
  (⟨out.1, p.sockets, out.2.1⟩, out.2.2.1, out.2.2.2)

/-- Cache evolution of one user-role connection under a stream of bus
envelopes delivered on its own channel. -/
def runUserBus (u : String) (socketsHas : Bool) (cache : List (Json × Json))
    (dev : Json) (envs : List Json) : List (Json × Json) :=
  envs.foldl (fun c e => (redisMessageHandler "user" u socketsHas c dev u e).cache) cache

/-!  Basic lemmas about the JavaScript value model. -/

theorem Json.sEq_eq {a b : Json} (h : Json.sEq a b = true) : a = b := by
  cases a <;> cases b <;> simp [Json.sEq] at h <;> simp [h]

theorem Json.sEq_self_of_sEq {a b : Json} (h : Json.sEq a b = true) :
    Json.sEq a a = true := by
  cases a <;> cases b <;> simp [Json.sEq] at h ⊢

theorem mapGet_set_self {k : Json} (hk : Json.sEq k k = true)
    (m : List (Json × Json)) (v : Json) : mapGet (mapSet m k v) k = some v := by
  induction m with
  | nil => simp [mapSet, mapGet, hk]
  | cons p ps ih =>
      cases h : Json.sEq p.1 k with
      | true => simp [mapSet, mapGet, h]
      | false => simp [mapSet, mapGet, h, ih]

theorem mapGet_set_sEq {kset kget : Json} (h : Json.sEq kset kget = true)
    (m : List (Json × Json)) (v : Json) : mapGet (mapSet m kset v) kget = some v := by
  have he := Json.sEq_eq h
  subst he
  exact mapGet_set_self (Json.sEq_self_of_sEq h) m v

theorem mapGet_set_ne {kset kget : Json} (h : Json.sEq kset kget = false)
    (m : List (Json × Json)) (v : Json) :
    mapGet (mapSet m kset v) kget = mapGet m kget := by
  induction m with
  | nil => simp [mapSet, mapGet, h]
  | cons p ps ih =>
      cases hp : Json.sEq p.1 kset with
      | true =>
          have he := Json.sEq_eq hp
          subst he
          simp [mapSet, mapGet, hp, h]
      | false => simp [mapSet, mapGet, hp, ih]

theorem mapGet_mem_values {m : List (Json × Json)} {k v : Json}
    (h : mapGet m k = some v) : v ∈ m.map Prod.snd := by
  induction m with
  | nil => simp [mapGet] at h
  | cons p ps ih =>
      by_cases hp : Json.sEq p.1 k = true
      · simp [mapGet, hp] at h
        simp [h]
      · simp [mapGet, hp] at h
        simp [ih h]

theorem getField_set_self (fs : List (String × Json)) (k : String) (v : Json) :
    getField (setFields fs k v) k = v := by
  induction fs with
  | nil => simp [setFields, getField]
  | cons p ps ih =>
      by_cases h : p.1 = k
      · simp [setFields, getField, h]
      · simp [setFields, getField, h, ih]

theorem jsIndex_setField_self (fs : List (String × Json)) (k : String) (v : Json) :
    jsIndex (setField (Json.obj fs) k v) k = v := by
  simp [setField, jsIndex, getField_set_self]

theorem socketsHasTok_filter_self (s : List (String × Nat)) (t : String) :
    socketsHasTok (s.filter (fun p => p.1 ≠ t)) t = false := by
  induction s with
  | nil => simp [socketsHasTok]
  | cons p ps ih =>
      by_cases h : p.1 = t
      · simp [socketsHasTok, List.filter_cons, h, ih]
      · simp [socketsHasTok, List.filter_cons, h, ih]

theorem registerSocket_nodup {sockets : List (String × Nat)} {t : String} {ws : Nat}
    (h : (sockets.map Prod.fst).Nodup) :
    ((registerSocket sockets t ws).map Prod.fst).Nodup := by
  unfold registerSocket
  by_cases hmem : sockets.any (fun p => p.1 = t) = true
  · simpa [hmem] using h
  · have hnot : t ∉ sockets.map Prod.fst := by
      simp only [List.any_eq_true, decide_eq_true_eq] at hmem
      intro hc
      rcases List.mem_map.mp hc with ⟨p, hp, hpt⟩
      exact hmem ⟨p, hp, hpt⟩
    simp only [Bool.not_eq_true] at hmem
    simp [hmem, List.nodup_append, h, hnot]

/-!  The user-branch upsert step and the last-write-wins property of the
Device State Cache. -/

/-- One mcuUpdatesDevice envelope on the own channel makes the user
branch upsert the carried device object under its deviceId and push the
current list when the token is registered. -/
theorem userUpsert_step (u : String) (hs : Bool) (cache : List (Json × Json))
    (dev d : Json) (hd : d.truthy = true) :
    redisMessageHandler "user" u hs cache dev u (mkMcuUpdate d) =
      ⟨mapSet cache (jsIndex d "deviceId") d, dev,
        if hs then
          [mkDevicesPush "userUpdatesDevice"
            ((mapSet cache (jsIndex d "deviceId") d).map Prod.snd)]
        else [], []⟩ := by
  simp [redisMessageHandler, mkMcuUpdate, jsIndex, getField, Json.sEq, hd]

/-- Folded upserts of a sequence of device objects, each keyed by its
own deviceId field. -/
def upsertAll (cache : List (Json × Json)) (ds : List (List (String × Json))) :
    List (Json × Json) :=
  ds.foldl (fun c fs => mapSet c (jsIndex (Json.obj fs) "deviceId") (Json.obj fs)) cache

theorem runUserBus_eq_upsertAll (u : String) (hs : Bool) (cache : List (Json × Json))
    (dev : Json) (ds : List (List (String × Json))) :
    runUserBus u hs cache dev (ds.map (fun fs => mkMcuUpdate (Json.obj fs))) =
      upsertAll cache ds := by
  induction ds generalizing cache with
  | nil => rfl
  | cons fs tl ih =>
      simp only [List.map_cons, runUserBus, List.foldl_cons, upsertAll]
      rw [userUpsert_step u hs cache dev (Json.obj fs) rfl]
      exact ih _

theorem mapGet_upsertAll_no_key {k : Json} {ds : List (List (String × Json))}
    (h : ∀ fs ∈ ds, Json.sEq (jsIndex (Json.obj fs) "deviceId") k = false)
    (cache : List (Json × Json)) :
    mapGet (upsertAll cache ds) k = mapGet cache k := by
  induction ds generalizing cache with
  | nil => rfl
  | cons fs tl ih =>
      rw [show upsertAll cache (fs :: tl)
            = upsertAll (mapSet cache (jsIndex (Json.obj fs) "deviceId") (Json.obj fs)) tl
          from rfl]
      rw [ih (fun g hg => h g (List.mem_cons_of_mem fs hg))]
      exact mapGet_set_ne (h fs (List.mem_cons_self fs tl)) cache (Json.obj fs)

theorem mapGet_upsertAll_last {k : Json} {ds : List (List (String × Json))}
    {fsLast : List (String × Json)}
    (h : (ds.filter (fun fs => Json.sEq (jsIndex (Json.obj fs) "deviceId") k)).getLast?
          = some fsLast)
    (cache : List (Json × Json)) :
    mapGet (upsertAll cache ds) k = some (Json.obj fsLast) := by
  induction ds generalizing cache with
  | nil => simp at h
  | cons fs tl ih =>
      by_cases htl :
          tl.filter (fun fs => Json.sEq (jsIndex (Json.obj fs) "deviceId") k) = []
      · by_cases hP : Json.sEq (jsIndex (Json.obj fs) "deviceId") k = true
        · rw [List.filter_cons_of_pos (by simp [hP]), htl] at h
          simp at h
          subst h
          simp only [upsertAll, List.foldl_cons]
          have hno : ∀ g ∈ tl, Json.sEq (jsIndex (Json.obj g) "deviceId") k = false := by
            intro g hg
            have := List.filter_eq_nil_iff.mp htl g hg
            simpa using this
          rw [show (tl.foldl
              (fun c gs => mapSet c (jsIndex (Json.obj gs) "deviceId") (Json.obj gs))
              (mapSet cache (jsIndex (Json.obj fs) "deviceId") (Json.obj fs)))
              = upsertAll (mapSet cache (jsIndex (Json.obj fs) "deviceId") (Json.obj fs)) tl
            from rfl]
          rw [mapGet_upsertAll_no_key hno]
          exact mapGet_set_sEq hP cache (Json.obj fs)
        · rw [List.filter_cons_of_neg (by simp [hP]), htl] at h
          simp at h
      · have hstep :
            (tl.filter (fun fs => Json.sEq (jsIndex (Json.obj fs) "deviceId") k)).getLast?
              = some fsLast := by
          by_cases hP : Json.sEq (jsIndex (Json.obj fs) "deviceId") k = true
          · rw [List.filter_cons_of_pos (by simp [hP])] at h
            rcases List.exists_cons_of_ne_nil htl with ⟨x, xs, hx⟩
            rw [hx] at h ⊢
            simpa [List.getLast?_cons_cons] using h
          · rwa [List.filter_cons_of_neg (by simp [hP])] at h
        simp only [upsertAll, List.foldl_cons]
        exact ih hstep _

/-- C1: for every sequence of deviceAnnounce/deviceUpdate envelopes
processed by the bus handler of a user-role connection, the final
Device State Cache entry for a fixed deviceId key equals the device
object carried by the last envelope whose device object has that key,
regardless of the interleaving with envelopes for other deviceIds. -/
theorem c1_user_cache_last_write_wins (u : String) (hs : Bool)
    (cache : List (Json × Json)) (dev : Json) (k : Json)
    (ds : List (List (String × Json))) (fsLast : List (String × Json))
    (h : (ds.filter (fun fs => Json.sEq (jsIndex (Json.obj fs) "deviceId") k)).getLast?
          = some fsLast) :
    mapGet (runUserBus u hs cache dev (ds.map (fun fs => mkMcuUpdate (Json.obj fs)))) k
      = some (Json.obj fsLast) := by
  rw [runUserBus_eq_upsertAll]
  exact mapGet_upsertAll_last h cache

/-- Sample device objects used to instantiate the general theorems. -/
def exD1a : List (String × Json) :=
  [("deviceId", Json.str "d1"), ("data", Json.obj [("v", Json.num 1)])]

def exD2 : List (String × Json) :=
  [("deviceId", Json.str "d2"), ("data", Json.obj [("v", Json.num 5)])]

def exD1b : List (String × Json) :=
  [("deviceId", Json.str "d1"), ("data", Json.obj [("v", Json.num 2)])]

/-- Witness for C1: two updates for d1 interleaved with one for d2; the
final cache entry for d1 is the second d1 object. -/
theorem c1_user_cache_last_write_wins_app :
    (([exD1a, exD2, exD1b].filter
        (fun fs => Json.sEq (jsIndex (Json.obj fs) "deviceId") (Json.str "d1"))).getLast?
      = some exD1b)
    ∧ mapGet (runUserBus "u1" true [] (Json.obj [])
        ([exD1a, exD2, exD1b].map (fun fs => mkMcuUpdate (Json.obj fs)))) (Json.str "d1")
      = some (Json.obj exD1b) :=
  ⟨rfl, c1_user_cache_last_write_wins "u1" true [] (Json.obj []) (Json.str "d1")
      [exD1a, exD2, exD1b] exD1b rfl⟩

/-- C9: a bus message delivered on a channel different from the
connection userId makes the bus handler return at once: the shared
cache, the device object, the socket sends and the publishes are all
untouched, for every role. -/
theorem c9_foreign_channel_noop (clientType userId incomingUserId : String)
    (socketsHas : Bool) (cache : List (Json × Json)) (deviceObj content : Json)
    (h : userId ≠ incomingUserId) :
    redisMessageHandler clientType userId socketsHas cache deviceObj incomingUserId content
      = ⟨cache, deviceObj, [], []⟩ := by
  simp [redisMessageHandler, h]

/-- Witness for C9 at a concrete foreign-channel delivery. -/
theorem c9_foreign_channel_noop_app :
    ("u1" : String) ≠ "u2"
    ∧ redisMessageHandler "user" "u1" true [] (Json.obj []) "u2"
        (mkMcuUpdate (Json.obj exD1a))
      = ⟨[], Json.obj [], [], []⟩ :=
  ⟨by decide, c9_foreign_channel_noop "user" "u1" "u2" true [] (Json.obj [])
      (mkMcuUpdate (Json.obj exD1a)) (by decide)⟩

/-- C10: a user-role socket frame that is not a pong and lacks the
deviceId field or the data field has no effect: nothing is published,
the connection-local state is unchanged, nothing is sent back and the
connection is not closed. -/
theorem c10_malformed_user_frame_noop (userId : String) (deviceObj content : Json)
    (hpong : Json.sEq (jsIndex content "type") (Json.str "pong") = false)
    (hmiss : jsIndex content "deviceId" = Json.undef ∨ jsIndex content "data" = Json.undef) :
    wsMessageHandler "user" userId deviceObj content = ⟨deviceObj, [], [], false⟩ := by
  rcases hmiss with hm | hm <;> simp [wsMessageHandler, hpong, hm, Json.truthy]

/-- Witness for C10 at a frame carrying data but no deviceId. -/
theorem c10_malformed_user_frame_noop_app :
    Json.sEq (jsIndex (Json.obj [("data", Json.obj [])]) "type") (Json.str "pong") = false
    ∧ jsIndex (Json.obj [("data", Json.obj [])]) "deviceId" = Json.undef
    ∧ wsMessageHandler "user" "u1" (Json.obj []) (Json.obj [("data", Json.obj [])])
        = ⟨Json.obj [], [], [], false⟩ :=
  ⟨rfl, rfl, c10_malformed_user_frame_noop "u1" (Json.obj []) (Json.obj [("data", Json.obj [])])
      rfl (Or.inl rfl)⟩

/-- C6: a userCommand envelope received by a device-role connection with
the own deviceId replaces the data property of the local device object
and forwards the merged object on the local socket (so a payload with
setpoint 72 yields data.setpoint equal to 72: the data property of the
merged object is exactly the payload data, third conjunct); a
userCommand for a foreign deviceId is ignored with no state change and
nothing sent or published. -/
theorem c6_user_command_merge_forward (u did : String) (socketsHas : Bool)
    (cache : List (Json × Json)) (selfFs cmdFs : List (String × Json))
    (hself : jsIndex (Json.obj selfFs) "deviceId" = Json.str did) :
    (jsIndex (Json.obj cmdFs) "deviceId" = Json.str did →
      redisMessageHandler "mcu" u socketsHas cache (Json.obj selfFs) u
          (mkUserUpdate (Json.obj cmdFs))
        = ⟨cache, setField (Json.obj selfFs) "data" (jsIndex (Json.obj cmdFs) "data"),
            if socketsHas then
              [setField (Json.obj selfFs) "data" (jsIndex (Json.obj cmdFs) "data")]
            else [], []⟩)
    ∧ (∀ other : String, jsIndex (Json.obj cmdFs) "deviceId" = Json.str other → other ≠ did →
      redisMessageHandler "mcu" u socketsHas cache (Json.obj selfFs) u
          (mkUserUpdate (Json.obj cmdFs))
        = ⟨cache, Json.obj selfFs, [], []⟩)
    ∧ jsIndex (setField (Json.obj selfFs) "data" (jsIndex (Json.obj cmdFs) "data")) "data"
        = jsIndex (Json.obj cmdFs) "data" := by
  have hself2 : getField selfFs "deviceId" = Json.str did := by simpa [jsIndex] using hself
  refine ⟨?_, ?_, jsIndex_setField_self selfFs "data" _⟩
  · intro hcmd
    have hcmd2 : getField cmdFs "deviceId" = Json.str did := by simpa [jsIndex] using hcmd
    simp [redisMessageHandler, mkUserUpdate, jsIndex, getField, Json.sEq, hself2, hcmd2]
  · intro other hcmd hne
    have hcmd2 : getField cmdFs "deviceId" = Json.str other := by simpa [jsIndex] using hcmd
    simp [redisMessageHandler, mkUserUpdate, jsIndex, getField, Json.sEq, hself2, hcmd2, hne]

/-- Sample device-role state and user command for the C6 witness. -/
def exSelf : List (String × Json) :=
  [("deviceId", Json.str "d1"), ("userId", Json.str "u1"),
   ("deviceName", Json.str "Thermostat"), ("deviceType", Json.str "sensor"),
   ("data", Json.obj [("temp", Json.num 65)])]

def exCmd : List (String × Json) :=
  [("deviceId", Json.str "d1"), ("data", Json.obj [("setpoint", Json.num 72)])]

/-- Witness for C6: the matching command merges and is forwarded, and
the merged object carries data.setpoint equal to 72. -/
theorem c6_user_command_merge_forward_app :
    jsIndex (Json.obj exSelf) "deviceId" = Json.str "d1"
    ∧ redisMessageHandler "mcu" "u1" true [] (Json.obj exSelf) "u1"
        (mkUserUpdate (Json.obj exCmd))
      = ⟨[], setField (Json.obj exSelf) "data" (jsIndex (Json.obj exCmd) "data"),
          [setField (Json.obj exSelf) "data" (jsIndex (Json.obj exCmd) "data")], []⟩
    ∧ jsIndex (jsIndex (setField (Json.obj exSelf) "data" (jsIndex (Json.obj exCmd) "data"))
          "data") "setpoint" = Json.num 72 :=
  ⟨rfl, (c6_user_command_merge_forward "u1" "d1" true [] exSelf exCmd rfl).1 rfl, rfl⟩

/-- Sample announced device object shared by several instantiations. -/
def exDevObj : Json := createDeviceObj "d1" "u1" "Thermostat" "sensor" (Json.obj [])

/-- Counterexample for C2: the registry is keyed by bearer token, so two
connections with the identical (userId, role, deviceId) key but distinct
tokens are both live and both stored with no close signal, and a
re-registration under an occupied token keeps the old handle instead of
storing the new one; no close signal is ever issued by registration. -/
theorem c2_registry_key_cex :
    (connsWithKey (acceptConn (acceptConn ⟨[], [], []⟩ ⟨"t1", "u1", "user", Json.obj []⟩ 1).1
        ⟨"t2", "u1", "user", Json.obj []⟩ 2).1.conns "u1" "user").length = 2
    ∧ (acceptConn ⟨[], [], []⟩ ⟨"t1", "u1", "user", Json.obj []⟩ 1).2 = []
    ∧ (acceptConn (acceptConn ⟨[], [], []⟩ ⟨"t1", "u1", "user", Json.obj []⟩ 1).1
        ⟨"t2", "u1", "user", Json.obj []⟩ 2).2 = []
    ∧ (acceptConn (acceptConn (acceptConn ⟨[], [], []⟩ ⟨"t1", "u1", "user", Json.obj []⟩ 1).1
        ⟨"t2", "u1", "user", Json.obj []⟩ 2).1 ⟨"t1", "u1", "user", Json.obj []⟩ 3).1.sockets
      = [("t1", 1), ("t2", 2)] :=
  ⟨rfl, rfl, rfl, rfl⟩

/-- C2 as amended: registration is first-write-wins keyed by token: it
never emits a close signal, leaves the map unchanged when the token is
already present, appends the new handle when it is absent, and preserves
distinctness of the token keys. -/
theorem c2_registry_token_first_write_wins (p : Proc) (c : Conn) (ws : Nat) :
    (acceptConn p c ws).2 = []
    ∧ (socketsHasTok p.sockets c.token = true → (acceptConn p c ws).1.sockets = p.sockets)
    ∧ (socketsHasTok p.sockets c.token = false →
        (acceptConn p c ws).1.sockets = p.sockets ++ [(c.token, ws)])
    ∧ ((p.sockets.map Prod.fst).Nodup → ((acceptConn p c ws).1.sockets.map Prod.fst).Nodup) := by
  refine ⟨rfl, ?_, ?_, fun h => registerSocket_nodup h⟩
  · intro h
    unfold socketsHasTok at h
    simp [acceptConn, registerSocket, h]
  · intro h
    unfold socketsHasTok at h
    simp [acceptConn, registerSocket, h]

/-- Witness for the amended C2 at a concrete registration below an
absent token. -/
theorem c2_registry_token_first_write_wins_app :
    socketsHasTok [("t1", 1)] "t2" = false
    ∧ (acceptConn ⟨[], [("t1", 1)], []⟩ ⟨"t2", "u1", "user", Json.obj []⟩ 2).1.sockets
        = [("t1", 1), ("t2", 2)]
    ∧ (acceptConn ⟨[], [("t1", 1)], []⟩ ⟨"t2", "u1", "user", Json.obj []⟩ 2).2 = []
    ∧ (((acceptConn ⟨[], [("t1", 1)], []⟩ ⟨"t2", "u1", "user", Json.obj []⟩ 2).1.sockets.map
          Prod.fst).Nodup) :=
  ⟨rfl,
    (c2_registry_token_first_write_wins ⟨[], [("t1", 1)], []⟩ ⟨"t2", "u1", "user", Json.obj []⟩
        2).2.2.1 rfl,
    (c2_registry_token_first_write_wins ⟨[], [("t1", 1)], []⟩ ⟨"t2", "u1", "user", Json.obj []⟩
        2).1,
    (c2_registry_token_first_write_wins ⟨[], [("t1", 1)], []⟩ ⟨"t2", "u1", "user", Json.obj []⟩
        2).2.2.2 (by decide)⟩

/-- Counterexample for C3: for a device-role connection whose pong
deadline fires, the timeout callback publishes the terminal removeDevice
envelope and the close handling that its ws.close triggers publishes a
second removal message for the same device, so the terminal publish is
not exactly once over the connection lifetime. -/
theorem c3_timeout_double_publish_cex :
    (timeoutThenClose "mcu" "u1" "t1" exDevObj [("t1", 1)]).published
      = [("u1", Json.obj [("messageType", Json.str "removeDevice"),
                          ("deviceId", Json.str "d1")]),
         ("u1", Json.obj [("removeDevice", Json.bool true),
                          ("deviceId", Json.str "d1")])] := rfl

/-- C3 as amended: on pong timeout the connection is evicted from the
sockets map and the timeout callback publishes the terminal envelope
once; for a user-role connection nothing more is published (exactly
once), while for a device-role connection the subsequent close handling
publishes a second removal message (the object literal with
removeDevice true and no messageType field); after the close is
initiated the readyState guard arms no further ping or pong deadline. -/
theorem c3_timeout_publish_per_role (userId token : String) (deviceObj : Json)
    (sockets : List (String × Nat)) (b : Bool) :
    (timeoutThenClose "user" userId token deviceObj sockets).published
      = [(userId, Json.obj [("messageType", Json.str "userStopped"),
                            ("userId", Json.str userId)])]
    ∧ (timeoutThenClose "mcu" userId token deviceObj sockets).published
      = [(userId, Json.obj [("messageType", Json.str "removeDevice"),
                            ("deviceId", jsIndex deviceObj "deviceId")]),
         (userId, Json.obj [("removeDevice", Json.bool true),
                            ("deviceId", jsIndex deviceObj "deviceId")])]
    ∧ socketsHasTok (timeoutThenClose "user" userId token deviceObj sockets).sockets token
        = false
    ∧ socketsHasTok (timeoutThenClose "mcu" userId token deviceObj sockets).sockets token
        = false
    ∧ sendPing 2 b = (false, false) := by
  refine ⟨rfl, rfl, ?_, ?_, rfl⟩
  · simp only [timeoutThenClose, pingTimeoutFire, closeHandlerFx]
    exact socketsHasTok_filter_self _ token
  · simp only [timeoutThenClose, pingTimeoutFire, closeHandlerFx]
    exact socketsHasTok_filter_self _ token

/-- Counterexample for C4: a process holding two live connections for
the same user; closing the first one issues the unsubscribe of the
shared topic even though the sibling connection of the same userId is
still live and registered. -/
theorem c4_unsubscribe_with_sibling_cex :
    (closeConnAt ⟨[⟨"tA", "u1", "user", Json.obj []⟩, ⟨"tB", "u1", "mcu", exDevObj⟩],
        [("tA", 1), ("tB", 2)], []⟩ 0).2.unsubscribed = ["u1"]
    ∧ (closeConnAt ⟨[⟨"tA", "u1", "user", Json.obj []⟩, ⟨"tB", "u1", "mcu", exDevObj⟩],
        [("tA", 1), ("tB", 2)], []⟩ 0).1.conns = [⟨"tB", "u1", "mcu", exDevObj⟩]
    ∧ socketsHasTok (closeConnAt ⟨[⟨"tA", "u1", "user", Json.obj []⟩,
        ⟨"tB", "u1", "mcu", exDevObj⟩], [("tA", 1), ("tB", 2)], []⟩ 0).1.sockets "tB"
      = true :=
  ⟨rfl, rfl, rfl⟩

/-- C4 as amended: the close handler of every connection issues the
unsubscribe of the userId channel unconditionally, with no per-process
reference counting over the other live connections of the same user. -/
theorem c4_close_always_unsubscribes (p : Proc) (i : Nat) (c : Conn)
    (h : p.conns[i]? = some c) :
    (closeConnAt p i).2.unsubscribed = [c.userId] := by
  simp [closeConnAt, h, closeHandlerFx]

/-- Witness for the amended C4 at a one-connection process. -/
theorem c4_close_always_unsubscribes_app :
    ((⟨[⟨"tA", "u1", "user", Json.obj []⟩], [("tA", 1)], []⟩ : Proc).conns[0]?
        = some ⟨"tA", "u1", "user", Json.obj []⟩)
    ∧ (closeConnAt ⟨[⟨"tA", "u1", "user", Json.obj []⟩], [("tA", 1)], []⟩ 0).2.unsubscribed
        = ["u1"] :=
  ⟨rfl, c4_close_always_unsubscribes ⟨[⟨"tA", "u1", "user", Json.obj []⟩], [("tA", 1)], []⟩ 0
      ⟨"tA", "u1", "user", Json.obj []⟩ rfl⟩

/-- Sample devices of two different users for the C5 scenario. -/
def exDA : List (String × Json) :=
  [("deviceId", Json.str "dA"), ("userId", Json.str "uA"), ("data", Json.obj [])]

def exDB : List (String × Json) :=
  [("deviceId", Json.str "dB"), ("userId", Json.str "uB"), ("data", Json.obj [])]

/-- Counterexample for C5: two user-role connections of different users
in one process; after the device of user B announces on the B channel,
the next push to the socket of user A lists the device of user B, and
in a run without user B the same delivery to user A lists only the own
device — the module-level cache is shared across connections. -/
theorem c5_cross_user_cache_leak_cex :
    (deliverBus (deliverBus ⟨[⟨"ta", "uA", "user", Json.obj []⟩, ⟨"tb", "uB", "user", Json.obj []⟩],
        [("ta", 1), ("tb", 2)], []⟩ "uB" (mkMcuUpdate (Json.obj exDB))).1
        "uA" (mkMcuUpdate (Json.obj exDA))).2.1
      = [("ta", mkDevicesPush "userUpdatesDevice" [Json.obj exDB, Json.obj exDA])]
    ∧ jsIndex (Json.obj exDB) "userId" = Json.str "uB"
    ∧ (deliverBus ⟨[⟨"ta", "uA", "user", Json.obj []⟩], [("ta", 1)], []⟩
        "uA" (mkMcuUpdate (Json.obj exDA))).2.1
      = [("ta", mkDevicesPush "userUpdatesDevice" [Json.obj exDA])] :=
  ⟨rfl, rfl, rfl⟩

/-- C5 as amended: connectedDevices is one module-level map threaded
through the bus handlers of every connection of the process, so an
envelope processed on behalf of the connection of user B writes an entry
that the next snapshot pushed to the connection of user A contains
(whenever the two device keys differ), and the list sent to the socket
of user A is exactly the value sequence of the shared map. -/
theorem c5_shared_cache_leak (uA uB : String) (cache : List (Json × Json))
    (devA devB : Json) (dA dB : List (String × Json))
    (_hne : uA ≠ uB)
    (hkB : Json.sEq (jsIndex (Json.obj dB) "deviceId") (jsIndex (Json.obj dB) "deviceId") = true)
    (hkey : Json.sEq (jsIndex (Json.obj dA) "deviceId") (jsIndex (Json.obj dB) "deviceId")
        = false) :
    (redisMessageHandler "user" uA true
        (redisMessageHandler "user" uB true cache devB uB (mkMcuUpdate (Json.obj dB))).cache
        devA uA (mkMcuUpdate (Json.obj dA))).sent
      = [mkDevicesPush "userUpdatesDevice"
          ((mapSet (mapSet cache (jsIndex (Json.obj dB) "deviceId") (Json.obj dB))
            (jsIndex (Json.obj dA) "deviceId") (Json.obj dA)).map Prod.snd)]
    ∧ Json.obj dB ∈
        ((mapSet (mapSet cache (jsIndex (Json.obj dB) "deviceId") (Json.obj dB))
          (jsIndex (Json.obj dA) "deviceId") (Json.obj dA)).map Prod.snd) := by
  constructor
  · rw [userUpsert_step uB true cache devB (Json.obj dB) rfl]
    rw [show (⟨mapSet cache (jsIndex (Json.obj dB) "deviceId") (Json.obj dB), devB,
        if true then
          [mkDevicesPush "userUpdatesDevice"
            ((mapSet cache (jsIndex (Json.obj dB) "deviceId") (Json.obj dB)).map Prod.snd)]
        else [], []⟩ : RedisMsgFx).cache
        = mapSet cache (jsIndex (Json.obj dB) "deviceId") (Json.obj dB) from rfl]
    rw [userUpsert_step uA true _ devA (Json.obj dA) rfl]
    rfl
  · exact mapGet_mem_values (by rw [mapGet_set_ne hkey]; exact mapGet_set_sEq hkB _ _)

/-- Witness for the amended C5 at the concrete two-user scenario. -/
theorem c5_shared_cache_leak_app :
    ("uA" : String) ≠ "uB"
    ∧ Json.sEq (jsIndex (Json.obj exDB) "deviceId") (jsIndex (Json.obj exDB) "deviceId") = true
    ∧ Json.sEq (jsIndex (Json.obj exDA) "deviceId") (jsIndex (Json.obj exDB) "deviceId") = false
    ∧ (redisMessageHandler "user" "uA" true
        (redisMessageHandler "user" "uB" true [] (Json.obj []) "uB"
          (mkMcuUpdate (Json.obj exDB))).cache
        (Json.obj []) "uA" (mkMcuUpdate (Json.obj exDA))).sent
      = [mkDevicesPush "userUpdatesDevice"
          ((mapSet (mapSet [] (jsIndex (Json.obj exDB) "deviceId") (Json.obj exDB))
            (jsIndex (Json.obj exDA) "deviceId") (Json.obj exDA)).map Prod.snd)]
    ∧ Json.obj exDB ∈
        ((mapSet (mapSet [] (jsIndex (Json.obj exDB) "deviceId") (Json.obj exDB))
          (jsIndex (Json.obj exDA) "deviceId") (Json.obj exDA)).map Prod.snd) :=
  ⟨by decide, rfl, rfl,
    (c5_shared_cache_leak "uA" "uB" [] (Json.obj []) (Json.obj []) exDA exDB
      (by decide) rfl rfl).1,
    (c5_shared_cache_leak "uA" "uB" [] (Json.obj []) (Json.obj []) exDA exDB
      (by decide) rfl rfl).2⟩

/-- Counterexample for C7: an authentication failure (the token decodes
to no user) and an owner mismatch (the token decodes to a different
user id) are rejected by the very same close call, code 1008 with one
shared reason string, so the policy code does not distinguish these two
reject causes. -/
theorem c7_auth_vs_mismatch_same_policy_cex :
    (handleConnection (fun _ => none) [] 1 (some "tk") (some "u1") (some "user")
        none none none).closed
      = some (1008, "Unauthorized: Invalid token or userId mismatch")
    ∧ (handleConnection (fun _ => some "u2") [] 1 (some "tk") (some "u1") (some "user")
        none none none).closed
      = some (1008, "Unauthorized: Invalid token or userId mismatch")
    ∧ ("u2" : String) ≠ "u1" :=
  ⟨rfl, rfl, by decide⟩

/-- Enumeration of the connection handler results: one of the three
reject records (all leaving sockets unchanged, subscribing and
publishing nothing) or a result with no close call. -/
theorem handleConnection_cases (auth : String → Option String)
    (sockets : List (String × Nat)) (ws : Nat)
    (token userId clientType deviceId deviceName deviceType : Option String) :
    handleConnection auth sockets ws token userId clientType deviceId deviceName deviceType
        = ⟨some (1008, "Unauthorized: Missing token, userId, or client type"),
            sockets, [], [], Json.obj []⟩
    ∨ handleConnection auth sockets ws token userId clientType deviceId deviceName deviceType
        = ⟨some (1008, "Unauthorized: Invalid token or userId mismatch"),
            sockets, [], [], Json.obj []⟩
    ∨ handleConnection auth sockets ws token userId clientType deviceId deviceName deviceType
        = ⟨some (1008, "Unauthorized: Missing deviceId, deviceName, deviceType"),
            sockets, [], [], Json.obj []⟩
    ∨ (handleConnection auth sockets ws token userId clientType deviceId deviceName
        deviceType).closed = none := by
  simp only [handleConnection]
  by_cases h1 : (paramTruthy token && paramTruthy userId && paramTruthy clientType) = true
  · rw [if_neg (not_not_intro h1)]
    cases hauth : auth (token.getD "") with
    | none => exact Or.inr (Or.inl rfl)
    | some uid =>
        dsimp only
        by_cases h2 : uid = userId.getD ""
        · rw [if_neg (show ¬(uid ≠ userId.getD "") from not_not_intro h2)]
          by_cases h3 : clientType = some "user"
          · rw [if_pos h3]
            exact Or.inr (Or.inr (Or.inr rfl))
          · rw [if_neg h3]
            by_cases h4 : clientType = some "mcu"
            · rw [if_pos h4]
              by_cases h5 :
                  (paramTruthy deviceId && paramTruthy deviceName && paramTruthy deviceType)
                    = true
              · rw [if_neg (not_not_intro h5)]
                exact Or.inr (Or.inr (Or.inr rfl))
              · rw [if_pos h5]
                exact Or.inr (Or.inr (Or.inl rfl))
            · rw [if_neg h4]
              exact Or.inr (Or.inr (Or.inr rfl))
        · rw [if_pos (show uid ≠ userId.getD "" from h2)]
          exact Or.inr (Or.inl rfl)
  · rw [if_pos h1]
    exact Or.inl rfl

/-- C7 as amended: every rejected connection attempt is closed with
policy code 1008 and one of three reason strings; missing connection
parameters and missing device identity parameters have their own
reasons, while authentication failure and owner mismatch share one; on
every reject the sockets registry is unchanged and nothing is
subscribed or published. -/
theorem c7_reject_policy (auth : String → Option String)
    (sockets : List (String × Nat)) (ws : Nat)
    (token userId clientType deviceId deviceName deviceType : Option String)
    (code : Nat) (reason : String)
    (h : (handleConnection auth sockets ws token userId clientType
            deviceId deviceName deviceType).closed = some (code, reason)) :
    code = 1008
    ∧ (handleConnection auth sockets ws token userId clientType
        deviceId deviceName deviceType).sockets = sockets
    ∧ (handleConnection auth sockets ws token userId clientType
        deviceId deviceName deviceType).subscribed = []
    ∧ (handleConnection auth sockets ws token userId clientType
        deviceId deviceName deviceType).published = []
    ∧ (reason = "Unauthorized: Missing token, userId, or client type"
       ∨ reason = "Unauthorized: Invalid token or userId mismatch"
       ∨ reason = "Unauthorized: Missing deviceId, deviceName, deviceType") := by
  rcases handleConnection_cases auth sockets ws token userId clientType deviceId deviceName
      deviceType with hc | hc | hc | hc
  · rw [hc] at h ⊢
    simp only [Option.some.injEq, Prod.mk.injEq] at h
    exact ⟨h.1.symm, rfl, rfl, rfl, Or.inl h.2.symm⟩
  · rw [hc] at h ⊢
    simp only [Option.some.injEq, Prod.mk.injEq] at h
    exact ⟨h.1.symm, rfl, rfl, rfl, Or.inr (Or.inl h.2.symm)⟩
  · rw [hc] at h ⊢
    simp only [Option.some.injEq, Prod.mk.injEq] at h
    exact ⟨h.1.symm, rfl, rfl, rfl, Or.inr (Or.inr h.2.symm)⟩
  · rw [hc] at h
    exact absurd h (by simp)

/-- Witness for the amended C7 at a concrete missing-parameters reject. -/
theorem c7_reject_policy_app :
    (handleConnection (fun _ => some "u1") [("t0", 9)] 1 none none none
        none none none).closed
      = some (1008, "Unauthorized: Missing token, userId, or client type")
    ∧ (handleConnection (fun _ => some "u1") [("t0", 9)] 1 none none none
        none none none).sockets = [("t0", 9)]
    ∧ (handleConnection (fun _ => some "u1") [("t0", 9)] 1 none none none
        none none none).subscribed = []
    ∧ (handleConnection (fun _ => some "u1") [("t0", 9)] 1 none none none
        none none none).published = [] :=
  ⟨rfl,
    (c7_reject_policy (fun _ => some "u1") [("t0", 9)] 1 none none none none none none
      1008 "Unauthorized: Missing token, userId, or client type" rfl).2.1,
    (c7_reject_policy (fun _ => some "u1") [("t0", 9)] 1 none none none none none none
      1008 "Unauthorized: Missing token, userId, or client type" rfl).2.2.1,
    (c7_reject_policy (fun _ => some "u1") [("t0", 9)] 1 none none none none none none
      1008 "Unauthorized: Missing token, userId, or client type" rfl).2.2.2.1⟩

/-- Counterexample for C8: an inbound frame whose type is the reserved
heartbeat value ping, received on a device-role connection, is not
consumed: it overwrites the stored device object and is published to
the bus as a deviceUpdate envelope, so heartbeat frames do reach the
relay data path. -/
theorem c8_ping_frame_forwarded_cex :
    wsMessageHandler "mcu" "u1" exDevObj
        (Json.obj [("type", Json.str "ping"), ("message", Json.str "keep-alive")])
      = ⟨Json.obj [("type", Json.str "ping"), ("message", Json.str "keep-alive")],
          [("u1", mkMcuUpdate
              (Json.obj [("type", Json.str "ping"), ("message", Json.str "keep-alive")]))],
          [], false⟩ := rfl

/-- C8 as amended: an inbound pong frame is consumed by the heartbeat
handling on every role (the data path publishes nothing, overwrites
nothing, sends nothing, and the pong listener clears the pending
deadline), but an inbound ping frame on a device-role connection is
treated as data: it overwrites the stored device object and is
published to the bus as a deviceUpdate envelope. -/
theorem c8_heartbeat_frames (clientType userId : String) (deviceObj content : Json) :
    (Json.sEq (jsIndex content "type") (Json.str "pong") = true →
      wsMessageHandler clientType userId deviceObj content = ⟨deviceObj, [], [], false⟩
      ∧ ∀ b : Bool, pongListener content b = false)
    ∧ (∀ msg : Json,
        wsMessageHandler "mcu" userId deviceObj
            (Json.obj [("type", Json.str "ping"), ("message", msg)])
          = ⟨Json.obj [("type", Json.str "ping"), ("message", msg)],
              [(userId, mkMcuUpdate (Json.obj [("type", Json.str "ping"), ("message", msg)]))],
              [], false⟩) := by
  constructor
  · intro h
    exact ⟨by simp [wsMessageHandler, h], fun b => by simp [pongListener, h]⟩
  · intro msg
    simp [wsMessageHandler, jsIndex, getField, Json.sEq, mkMcuUpdate]

/-- Witness for the amended C8 at a concrete pong frame. -/
theorem c8_heartbeat_frames_app :
    Json.sEq (jsIndex (Json.obj [("type", Json.str "pong")]) "type") (Json.str "pong") = true
    ∧ wsMessageHandler "mcu" "u1" exDevObj (Json.obj [("type", Json.str "pong")])
        = ⟨exDevObj, [], [], false⟩
    ∧ pongListener (Json.obj [("type", Json.str "pong")]) true = false :=
  ⟨rfl,
    ((c8_heartbeat_frames "mcu" "u1" exDevObj (Json.obj [("type", Json.str "pong")])).1 rfl).1,
    ((c8_heartbeat_frames "mcu" "u1" exDevObj (Json.obj [("type", Json.str "pong")])).1 rfl).2
      true⟩
